import Mathlib

/-!
Verification of the protocol-bridge layer of the AIBot repository: the
JSON-RPC style envelope model, the two WebSocket MCP servers
(`mcp/mcp_server.py` and `mcp/git_mcp_server.py`), and the client call
facade (`pr-check/assistant/pr_review/mcp_client.py`, `bot.py`).

The Python code is shallowly embedded: JSON values become the inductive
`JVal`; each server's per-message dispatch (the body of its
`handle_websocket` read loop) becomes a pure function from the parsed
message to the optional response, with the effectful tool handlers
(subprocess execution, outbound HTTP) supplied as an environment whose
entries return `Except String String` — `.error m` models a Python
exception with message `m`, `.ok payload` a normal return.  Elapsed time
is logical: an awaited operation has a duration in abstract time units and
`asyncio.wait_for` times out exactly when the duration exceeds the bound.
-/

/-- A JSON value as produced by Python's `json.loads`: null, booleans,
numbers (restricted to integers, which covers every number this protocol
layer itself produces or inspects), strings, arrays and objects.  Objects
keep their fields as an association list in insertion order, matching the
insertion-ordered `dict` of Python. -/
inductive JVal where
  | null : JVal
  | bool (b : Bool) : JVal
  | num (n : Int) : JVal
  | str (s : String) : JVal
  | arr (elems : List JVal) : JVal
  | obj (fields : List (String × JVal)) : JVal
deriving Repr

/-- Python's `d.get(k)` on a receiver known to be a dict: `none` when the
key is absent.  The `none` for a non-object receiver is a modelling
shortcut that is only relied on where the receiver is dict-shaped by
construction; Python itself raises `AttributeError` there, which
`JVal.pyGet` below models faithfully for the read loops' top-level
accesses. -/
def JVal.get? : JVal → String → Option JVal
  | .obj fields, k => fields.lookup k
  | _, _ => none

/-- Python's `d.get(k, default)`. -/
def JVal.getD (j : JVal) (k : String) (d : JVal) : JVal :=
  (j.get? k).getD d

/-- Whether the key is present, as Python's `k in d`. -/
def JVal.hasKey (j : JVal) (k : String) : Bool :=
  (j.get? k).isSome

/-- Python truthiness of a JSON value (`if not x` branches on the negation
of this): `None`, `False`, `0`, `""`, `[]` and the empty dict are falsy. -/
def JVal.isTruthy : JVal → Bool
  | .null => false
  | .bool b => b
  | .num n => n != 0
  | .str s => !(s == "")
  | .arr elems => !elems.isEmpty
  | .obj fields => !fields.isEmpty

/-- Python's `x == "lit"` for a dynamically typed `x`: true exactly when `x`
is that string. -/
def JVal.eqStr : JVal → String → Bool
  | .str s, t => s == t
  | _, _ => false

/-- Python's `x == "lit"` where `x` came from `d.get(k)` and may be `None`
(absent key): `None == "lit"` is false. -/
def optEqStr : Option JVal → String → Bool
  | some v, t => v.eqStr t
  | none, _ => false

/-- Python's `str(x)` as used by the servers' f-strings.  The servers only
ever format strings (tool and method names) and `None` this way; the other
cases are best-effort renderings that no claim depends on. -/
def pyStr : Option JVal → String
  | some (.str s) => s
  | some (.bool true) => "True"
  | some (.bool false) => "False"
  | some (.num n) => toString n
  | some .null => "None"
  | some (.arr _) => "<list>"
  | some (.obj _) => "<dict>"
  | none => "None"

/-- The outcome field of a response envelope: `result` and `error` are
mutually exclusive (spec 4.1 declares a response carrying both invalid, so
the envelope type separates them by construction).  An error carries a
numeric code and a human-readable message. -/
inductive RespOutcome where
  | ok (result : JVal) : RespOutcome
  | err (code : Int) (message : String) : RespOutcome
deriving Repr

/-- A wire envelope (spec section 3): a request carries an id, a method and
params; a notification carries a method and params but no id; a response
carries an id and either a result or an error. -/
inductive Envelope where
  | request (id : JVal) (method : String) (params : JVal) : Envelope
  | notification (method : String) (params : JVal) : Envelope
  | response (id : JVal) (outcome : RespOutcome) : Envelope
deriving Repr

/-- Serialize an envelope to the JSON value the repository writes on the
wire: requests and notifications as the `mcp` session sends them
(`jsonrpc`, optional `id`, `method`, `params`), responses exactly as both
`handle_websocket` loops build them (`jsonrpc`, `id`, then `result`, or
`error` with `code` and `message`).  The byte level is Python's `json`
module; the embedding works at the JSON-value level it parses to. -/
def encodeEnvelope : Envelope → JVal
  | .request id m p =>
      .obj [("jsonrpc", .str "2.0"), ("id", id), ("method", .str m), ("params", p)]
  | .notification m p =>
      .obj [("jsonrpc", .str "2.0"), ("method", .str m), ("params", p)]
  | .response id (.ok r) =>
      .obj [("jsonrpc", .str "2.0"), ("id", id), ("result", r)]
  | .response id (.err c msg) =>
      .obj [("jsonrpc", .str "2.0"), ("id", id),
            ("error", .obj [("code", .num c), ("message", .str msg)])]

/-- Deserialize a JSON value back into an envelope, the way the read loops
inspect a parsed message: a `method` key marks a request (when `id` is
present) or a notification (when it is absent), `params` defaults to the
empty object; otherwise exactly one of `result`/`error` together with an
`id` marks a response.  Structurally invalid input yields `none`. -/
def decodeEnvelope (j : JVal) : Option Envelope :=
  match j.get? "method" with
  | some (.str m) =>
      let p := j.getD "params" (.obj [])
      match j.get? "id" with
      | some id => some (.request id m p)
      | none => some (.notification m p)
  | some _ => none
  | none =>
      match j.get? "result", j.get? "error" with
      | some r, none =>
          (j.get? "id").map fun id => .response id (.ok r)
      | none, some e =>
          match e.get? "code", e.get? "message" with
          | some (.num c), some (.str msg) =>
              (j.get? "id").map fun id => .response id (.err c msg)
          | _, _ => none
      | _, _ => none

/-- A tool descriptor as registered at server start: name, description and
input schema (spec section 3, `Tool` of `mcp.types` in the source). -/
structure ToolDescriptor where
  name : String
  description : String
  inputSchema : JVal
deriving Repr

/-- The wire form of one descriptor, as both `tools/list` handlers marshal
it: an object with `name`, `description` and `inputSchema`. -/
def marshalTool (t : ToolDescriptor) : JVal :=
  .obj [("name", .str t.name), ("description", .str t.description),
        ("inputSchema", t.inputSchema)]

/-- The input schema shared by the no-argument tools:
`{"type": "object", "properties": {}, "required": []}`. -/
def emptyObjectSchema : JVal :=
  .obj [("type", .str "object"), ("properties", .obj []), ("required", .arr [])]

/-- The registry of `mcp_server.py` as its decorated `list_tools` declares it
at startup: two descriptors, in registration order. -/
def trackerRegistryTools : List ToolDescriptor :=
  [⟨"get-tracker-tasks", "Получить список задач из Yandex Tracker",
    emptyObjectSchema⟩,
   ⟨"get-host-metrics",
    "Получить метрики хоста (CPU, RAM, Disk, Uptime, Temperature, System info)",
    emptyObjectSchema⟩]

/-- The three descriptors `mcp_server.py`'s `handle_websocket` hardcodes in
its `tools/list` response, as written on the wire (lines 421-470). -/
def trackerWireTools : List JVal :=
  [.obj [("name", .str "get-tracker-tasks"),
         ("description",
          .str "Получить список задач из Yandex Tracker с возможностью фильтрации по приоритету"),
         ("inputSchema",
          .obj [("type", .str "object"),
                ("properties",
                 .obj [("priority",
                        .obj [("type", .str "string"),
                              ("description",
                               .str "Фильтр по приоритету: blocker, critical, high, normal, low"),
                              ("enum",
                               .arr [.str "blocker", .str "critical", .str "high",
                                     .str "normal", .str "low"])])]),
                ("required", .arr [])])],
   .obj [("name", .str "create-tracker-task"),
         ("description", .str "Создать новую задачу в Yandex Tracker"),
         ("inputSchema",
          .obj [("type", .str "object"),
                ("properties",
                 .obj [("summary",
                        .obj [("type", .str "string"),
                              ("description", .str "Название задачи (обязательно)")]),
                       ("description",
                        .obj [("type", .str "string"),
                              ("description", .str "Описание задачи")]),
                       ("priority",
                        .obj [("type", .str "string"),
                              ("description",
                               .str "Приоритет: blocker, critical, high, normal, low"),
                              ("enum",
                               .arr [.str "blocker", .str "critical", .str "high",
                                     .str "normal", .str "low"]),
                              ("default", .str "normal")])]),
                ("required", .arr [.str "summary"])])],
   .obj [("name", .str "get-host-metrics"),
         ("description",
          .str "Получить метрики хоста (CPU, RAM, Disk, Uptime, Temperature, System info)"),
         ("inputSchema", emptyObjectSchema)]]

/-- The registry of `git_mcp_server.py` as its `list_tools` declares it at
startup: six descriptors, in registration order. -/
def gitRegistryTools : List ToolDescriptor :=
  [⟨"get-current-branch", "Получить текущую git ветку", emptyObjectSchema⟩,
   ⟨"get-git-status",
    "Получить статус git репозитория (измененные, добавленные, удаленные файлы)",
    emptyObjectSchema⟩,
   ⟨"get-recent-commits", "Получить последние коммиты из git истории",
    .obj [("type", .str "object"),
          ("properties",
           .obj [("count",
                  .obj [("type", .str "integer"),
                        ("description", .str "Количество коммитов (по умолчанию 10)"),
                        ("default", .num 10)])]),
          ("required", .arr [])]⟩,
   ⟨"get-changed-files", "Получить список всех измененных файлов",
    emptyObjectSchema⟩,
   ⟨"get-file-content", "Получить содержимое файла из репозитория",
    .obj [("type", .str "object"),
          ("properties",
           .obj [("file_path",
                  .obj [("type", .str "string"),
                        ("description",
                         .str "Относительный путь к файлу от корня репозитория")])]),
          ("required", .arr [.str "file_path"])]⟩,
   ⟨"get-git-diff", "Получить git diff (изменения в файлах)",
    .obj [("type", .str "object"),
          ("properties",
           .obj [("file_path",
                  .obj [("type", .str "string"),
                        ("description",
                         .str "Путь к файлу (опционально, если не указан - показать все изменения)")])]),
          ("required", .arr [])]⟩]

/-- A JSON-RPC response carrying a single text content block, as both
servers answer a successful `tools/call`. -/
def text_result_response (rid : JVal) (payload : String) : JVal :=
  .obj [("jsonrpc", .str "2.0"), ("id", rid),
        ("result",
         .obj [("content",
                .arr [.obj [("type", .str "text"), ("text", .str payload)]])])]

/-- A JSON-RPC error response, as both servers build one. -/
def error_response (rid : JVal) (code : Int) (message : String) : JVal :=
  .obj [("jsonrpc", .str "2.0"), ("id", rid),
        ("error", .obj [("code", .num code), ("message", .str message)])]

/-- The response both read loops send when `json.loads` fails: id `null`,
code `-32700`, message `Parse error`. -/
def parse_error_response : JVal :=
  error_response .null (-32700) "Parse error"

/-- The response to `initialize`: protocol version, capabilities and server
info (the two servers differ only in the server name). -/
def init_response (rid : JVal) (serverName : String) : JVal :=
  .obj [("jsonrpc", .str "2.0"), ("id", rid),
        ("result",
         .obj [("protocolVersion", .str "2024-11-05"),
               ("capabilities", .obj [("tools", .obj [])]),
               ("serverInfo",
                .obj [("name", .str serverName), ("version", .str "1.0.0")])])]

/-- The response to `tools/list`: the given descriptors under
`result.tools`. -/
def list_tools_response (rid : JVal) (tools : List JVal) : JVal :=
  .obj [("jsonrpc", .str "2.0"), ("id", rid),
        ("result", .obj [("tools", .arr tools)])]

/-- Which branch of `mcp_server.py`'s `tools/call` dispatch a call takes:
one of its three tool handlers with the arguments the dispatch extracts, or
the unknown-tool branch. -/
inductive TrackerCallOutcome where
  | runTasks (priority : Option JVal) : TrackerCallOutcome
  | runCreate (summary description priority : JVal) : TrackerCallOutcome
  | runMetrics : TrackerCallOutcome
  | toolNotFound (name : Option JVal) : TrackerCallOutcome
deriving Repr

/-- The `tools/call` dispatch of `mcp_server.py`'s `handle_websocket`
(lines 477-558), before any handler effect: picks the handler by name and
extracts its arguments with the source's defaults (`summary`/`description`
default to the empty string, `priority` of `create-tracker-task` to
`normal`, `priority` of `get-tracker-tasks` to `None`). -/
def tracker_call_branch (toolName : Option JVal) (toolArgs : JVal) :
    TrackerCallOutcome :=
  if optEqStr toolName "get-tracker-tasks" then
    .runTasks (toolArgs.get? "priority")
  else if optEqStr toolName "create-tracker-task" then
    .runCreate (toolArgs.getD "summary" (.str ""))
      (toolArgs.getD "description" (.str ""))
      (toolArgs.getD "priority" (.str "normal"))
  else if optEqStr toolName "get-host-metrics" then
    .runMetrics
  else
    .toolNotFound toolName

/-- The effectful tool handlers of `mcp_server.py`, abstracted: each entry
returns the handler's JSON payload, or `.error m` when the handler raises a
Python exception with message `m` (`get_tracker_tasks` and
`create_tracker_task` perform outbound HTTP, `get_host_metrics` reads
system sensors). -/
structure TrackerEnv where
  get_tracker_tasks : Option JVal → Except String String
  create_tracker_task : JVal → JVal → JVal → Except String String
  get_host_metrics : Except String String

/-- One parsed message through `mcp_server.py`'s dispatch (the `try` body of
its read loop): returns the response to send (`none` for the
`notifications/initialized` branch, which answers nothing), or `.error m`
when a handler raises and the exception escapes to the loop's
`except Exception` clause. -/
def trackerProcess (env : TrackerEnv) (req : JVal) :
    Except String (Option JVal) :=
  let method := req.get? "method"
  let rid := req.getD "id" .null
  let params := req.getD "params" (.obj [])
  if optEqStr method "initialize" then
    .ok (some (init_response rid "yandex-tracker-mcp-server"))
  else if optEqStr method "tools/list" then
    .ok (some (list_tools_response rid trackerWireTools))
  else if optEqStr method "tools/call" then
    match tracker_call_branch (params.get? "name")
        (params.getD "arguments" (.obj [])) with
    | .runTasks priority => do
        let payload ← env.get_tracker_tasks priority
        pure (some (text_result_response rid payload))
    | .runCreate s d p => do
        let payload ← env.create_tracker_task s d p
        pure (some (text_result_response rid payload))
    | .runMetrics => do
        let payload ← env.get_host_metrics
        pure (some (text_result_response rid payload))
    | .toolNotFound nm =>
        .ok (some (error_response rid (-32601) ("Tool not found: " ++ pyStr nm)))
  else if optEqStr method "notifications/initialized" then
    .ok none
  else
    .ok (some (error_response rid (-32601)
      ("Method not found: " ++ pyStr method)))

/-- One inbound message through `mcp_server.py`'s read loop: a message
`json.loads` rejects (`none`) is answered with the parse-error response; a
parsed message goes through `trackerProcess`, and an exception escaping it
is converted by the loop's `except Exception` clause into an internal-error
response whose id is the request's. -/
def trackerStep (env : TrackerEnv) (msg : Option JVal) : Option JVal :=
  match msg with
  | none => some parse_error_response
  | some req =>
      match trackerProcess env req with
      | .ok resp => resp
      | .error m =>
          some (error_response (req.getD "id" .null) (-32603)
            ("Internal error: " ++ m))

/-- The read loop of `mcp_server.py` over a whole connection: every inbound
message is handled in arrival order; no branch of the loop body closes the
connection. -/
def trackerRun (env : TrackerEnv) (msgs : List (Option JVal)) :
    List (Option JVal) :=
  msgs.map (trackerStep env)

/-- A handler of `git_mcp_server.py`'s `call_tool` together with the
argument the dispatch hands it. -/
inductive GitHandlerCall where
  | currentBranch : GitHandlerCall
  | gitStatus : GitHandlerCall
  | recentCommits (count : JVal) : GitHandlerCall
  | changedFiles : GitHandlerCall
  | fileContent (filePath : JVal) : GitHandlerCall
  | gitDiff (filePath : Option JVal) : GitHandlerCall
deriving Repr

/-- What `git_mcp_server.py`'s `call_tool` decides before any handler
effect: run a handler with extracted arguments, answer the
`file_path is required` payload without running a handler, or answer the
tool-not-found payload. -/
inductive GitCallOutcome where
  | runHandler (h : GitHandlerCall) : GitCallOutcome
  | missingArgument (payload : String) : GitCallOutcome
  | toolNotFound (payload : String) : GitCallOutcome
deriving Repr

/-- The dispatch of `git_mcp_server.py`'s `call_tool` (lines 382-409):
`count` defaults to `10`; `get-file-content` answers an error payload when
`file_path` is absent or falsy (Python's `if not file_path`), otherwise
runs the handler; an unknown name yields a `success: false` JSON payload
returned as an ordinary result. -/
def git_call_tool_branch (name : Option JVal) (args : JVal) : GitCallOutcome :=
  if optEqStr name "get-current-branch" then
    .runHandler .currentBranch
  else if optEqStr name "get-git-status" then
    .runHandler .gitStatus
  else if optEqStr name "get-recent-commits" then
    .runHandler (.recentCommits (args.getD "count" (.num 10)))
  else if optEqStr name "get-changed-files" then
    .runHandler .changedFiles
  else if optEqStr name "get-file-content" then
    let fp := args.getD "file_path" .null
    if fp.isTruthy then .runHandler (.fileContent fp)
    else .missingArgument
      "\x7b\"success\": false, \"error\": \"file_path is required\"\x7d"
  else if optEqStr name "get-git-diff" then
    .runHandler (.gitDiff (args.get? "file_path"))
  else
    .toolNotFound
      ("\x7b\"success\": false, \"error\": \"Tool not found: " ++ pyStr name
        ++ "\"\x7d")

/-- The effectful git handlers of `git_mcp_server.py`, abstracted: each
entry returns the handler's JSON payload, or `.error m` when the handler
raises a Python exception with message `m` (each runs `git` as a
subprocess or reads the filesystem). -/
structure GitEnv where
  get_current_branch : Except String String
  get_git_status : Except String String
  get_recent_commits : JVal → Except String String
  get_changed_files : Except String String
  get_file_content : JVal → Except String String
  get_git_diff : Option JVal → Except String String

/-- Run the handler a dispatch outcome names against the environment. -/
def run_git_handler (env : GitEnv) : GitHandlerCall → Except String String
  | .currentBranch => env.get_current_branch
  | .gitStatus => env.get_git_status
  | .recentCommits c => env.get_recent_commits c
  | .changedFiles => env.get_changed_files
  | .fileContent fp => env.get_file_content fp
  | .gitDiff fp => env.get_git_diff fp

/-- `git_mcp_server.py`'s `call_tool`: the dispatch, then the chosen
handler; the two early payloads are returned as ordinary text results
(`.ok`), exactly as the source returns them inside `TextContent`. -/
def git_call_tool (env : GitEnv) (name : Option JVal) (args : JVal) :
    Except String String :=
  match git_call_tool_branch name args with
  | .runHandler h => run_git_handler env h
  | .missingArgument payload => .ok payload
  | .toolNotFound payload => .ok payload

/-- One parsed message through `git_mcp_server.py`'s dispatch (the `try`
body of its read loop, lines 441-520): `initialize`, `tools/list`
marshalling the registry in order, `tools/call` through `git_call_tool`
(whose result is always wrapped as a text result), the
`notifications/initialized` branch answering nothing, and method-not-found
for the rest. -/
def gitProcess (env : GitEnv) (req : JVal) : Except String (Option JVal) :=
  let method := req.get? "method"
  let rid := req.getD "id" .null
  let params := req.getD "params" (.obj [])
  if optEqStr method "initialize" then
    .ok (some (init_response rid "git-mcp-server"))
  else if optEqStr method "tools/list" then
    .ok (some (list_tools_response rid (gitRegistryTools.map marshalTool)))
  else if optEqStr method "tools/call" then do
    let payload ← git_call_tool env (params.get? "name")
      (params.getD "arguments" (.obj []))
    pure (some (text_result_response rid payload))
  else if optEqStr method "notifications/initialized" then
    .ok none
  else
    .ok (some (error_response rid (-32601)
      ("Method not found: " ++ pyStr method)))

/-- One inbound message through `git_mcp_server.py`'s read loop, with the
same parse-error and internal-error conversion clauses as the tracker
server's loop. -/
def gitStep (env : GitEnv) (msg : Option JVal) : Option JVal :=
  match msg with
  | none => some parse_error_response
  | some req =>
      match gitProcess env req with
      | .ok resp => resp
      | .error m =>
          some (error_response (req.getD "id" .null) (-32603)
            ("Internal error: " ++ m))

/-- The read loop of `git_mcp_server.py` over a whole connection. -/
def gitRun (env : GitEnv) (msgs : List (Option JVal)) : List (Option JVal) :=
  msgs.map (gitStep env)

/-- What awaiting one operation under `asyncio.wait_for` can produce: a
timeout, or a re-raised exception from the operation itself. -/
inductive PyAwaitErr where
  | timeoutFired : PyAwaitErr
  | exn (msg : String) : PyAwaitErr
deriving Repr

/-- `asyncio.wait_for(op, timeout)` in logical time: the operation has a
duration and an outcome; when the duration exceeds the bound the waiter is
abandoned and a `TimeoutError` raised after exactly `bound` time units,
otherwise the operation's outcome is returned (an exception re-raised)
after its duration.  The pair is (outcome, elapsed time). -/
def waitFor (bound : Nat) (duration : Nat) (outcome : Except String α) :
    Except PyAwaitErr α × Nat :=
  if bound < duration then
    (.error .timeoutFired, bound)
  else
    match outcome with
    | .ok a => (.ok a, duration)
    | .error m => (.error (.exn m), duration)

/-- Connection lifecycle events of one client call: the WebSocket opened by
`websocket_client(...)` and its closure when the `async with` block exits. -/
inductive ConnEvent where
  | opened (cid : Nat) : ConnEvent
  | closed (cid : Nat) : ConnEvent
deriving Repr, DecidableEq

/-- The environment one invocation of `GitMCPClient._call_tool` (and
`bot.py`'s `call_mcp_tool`, which has the same body) runs against:
whether establishing the transport and session succeeds, and the duration
and outcome of `session.initialize()` and of `session.call_tool(...)`
(the latter's `.ok` value is the list of text contents of the result). -/
structure ClientEnv where
  connect : Except String Unit
  init_duration : Nat
  init_result : Except String Unit
  call_duration : Nat
  call_result : Except String (List String)

/-- `GitMCPClient._call_tool` (mcp_client.py lines 45-96), instrumented
with the invocation's connection events and elapsed logical time.  The
`try` covers the whole body: a connection failure, a timeout of
`initialize` (bound 10) or of `call_tool` (the caller's bound), and any
exception all fall to the `except` clauses, which return `None`; a result
with an empty content list also returns `None`; otherwise the first
content's text is returned.  Exiting the `async with` blocks closes the
connection on every path on which it was opened. -/
def client_call_tool_trace (env : ClientEnv) (bound : Nat) (cid : Nat) :
    Option String × Nat × List ConnEvent :=
  match env.connect with
  | .error _ => (none, 0, [])
  | .ok _ =>
      let events := [ConnEvent.opened cid, ConnEvent.closed cid]
      match waitFor 10 env.init_duration env.init_result with
      | (.error _, t1) => (none, t1, events)
      | (.ok _, t1) =>
          match waitFor bound env.call_duration env.call_result with
          | (.error _, t2) => (none, t1 + t2, events)
          | (.ok contents, t2) =>
              match contents.head? with
              | some text => (some text, t1 + t2, events)
              | none => (none, t1 + t2, events)

/-- The value `GitMCPClient._call_tool` returns to its caller. -/
def client_call_tool (env : ClientEnv) (bound : Nat) : Option String :=
  (client_call_tool_trace env bound 0).1

/-- The loop of `GitMCPClient._call_tool_with_retry` (mcp_client.py lines
115-130) from a given attempt number with the given fuel:
`attemptResult i` is what the full connect/handshake/call cycle of attempt
`i` returns.  The result is (returned value, number of cycles performed,
the sleep intervals between consecutive attempts in order). -/
def retry_loop (attemptResult : Nat → Option String) (maxRetries : Nat) :
    Nat → Nat → Option String × Nat × List Nat
  | 0, _ => (none, 0, [])
  | fuel + 1, attempt =>
      match attemptResult attempt with
      | some r => (some r, 1, [])
      | none =>
          if attempt < maxRetries then
            let rest := retry_loop attemptResult maxRetries fuel (attempt + 1)
            (rest.1, rest.2.1 + 1, 2 ^ attempt :: rest.2.2)
          else
            (none, 1, [])

/-- `GitMCPClient._call_tool_with_retry`: `for attempt in
range(1, max_retries + 1)` — attempts start at 1 and the loop body runs at
most `max_retries` times, sleeping `2 ** attempt` between a failed attempt
and the next. -/
def call_tool_with_retry (attemptResult : Nat → Option String)
    (maxRetries : Nat) : Option String × Nat × List Nat :=
  retry_loop attemptResult maxRetries maxRetries 1

/-- The retrying facade over the per-attempt client call: attempt `i` runs
one full connect/handshake/call cycle against that attempt's
environment. -/
def call_tool_with_retry_env (envs : Nat → ClientEnv) (bound : Nat)
    (maxRetries : Nat) : Option String × Nat × List Nat :=
  call_tool_with_retry (fun attempt => client_call_tool (envs attempt) bound)
    maxRetries

/-- Event-loop lifecycle events of the synchronous bridge. -/
inductive LoopEvent where
  | created (loopId : Nat) : LoopEvent
  | closed (loopId : Nat) : LoopEvent
deriving Repr, DecidableEq

/-- Python's `try ... finally`: the cleanup events happen after the body's
events on the normal path and on the raising path alike, and the body's
outcome (value or re-raised exception) is preserved. -/
def tryFinallyEvents (body : Except String α × List LoopEvent)
    (cleanup : List LoopEvent) : Except String α × List LoopEvent :=
  (body.1, body.2 ++ cleanup)

/-- `bot.py`'s `call_mcp_tool_sync` (lines 873-879) and
`GitMCPClientSync._run_async`, which has the same body:
`asyncio.new_event_loop()` allocates a fresh loop (modelled by the next
free loop id), `loop.run_until_complete(coro)` yields the coroutine's
outcome, and the `finally` closes the loop on both paths.  Returns the
(outcome, lifecycle events) pair and the next free loop id. -/
def call_mcp_tool_sync (nextLoopId : Nat) (coro : Except String α) :
    (Except String α × List LoopEvent) × Nat :=
  let loopId := nextLoopId
  (tryFinallyEvents (coro, [.created loopId]) [.closed loopId], nextLoopId + 1)

/-- A JSON-RPC request as the `mcp` client session sends one. -/
def rpc_request (rid : JVal) (method : String) (params : JVal) : JVal :=
  .obj [("jsonrpc", .str "2.0"), ("id", rid), ("method", .str method),
        ("params", params)]

/-- A `tools/call` request for the named tool with the given arguments. -/
def call_tool_request (rid : JVal) (toolName : String) (args : JVal) : JVal :=
  rpc_request rid "tools/call"
    (.obj [("name", .str toolName), ("arguments", args)])

/-- A tracker environment whose handlers all return the empty payload (used
to exercise branches that consult no handler). -/
def dummyTrackerEnv : TrackerEnv :=
  ⟨fun _ => .ok "", fun _ _ _ => .ok "", .ok ""⟩

/-- A git environment whose handlers all return the empty payload. -/
def dummyGitEnv : GitEnv :=
  ⟨.ok "", .ok "", fun _ => .ok "", .ok "", fun _ => .ok "", fun _ => .ok ""⟩

/-- Python attribute access `x.get(k)` as the read loops use it on the
value `json.loads` returned: only a dict has a `.get` method; on any other
receiver Python raises `AttributeError` (modelled as `.error` carrying the
exception's name). -/
def JVal.pyGet : JVal → String → Except String (Option JVal)
  | .obj fields, k => .ok (fields.lookup k)
  | _, _ => .error "AttributeError"

/-- One inbound message through `mcp_server.py`'s read loop with Python's
attribute semantics at the top level.  `none` (a `json.loads` failure) is
answered with the parse-error response.  A parsed message that is not a
JSON object makes `request.get("method")` raise `AttributeError`; the
loop's `except Exception` clause then evaluates `request.get("id")` on the
same non-dict value and raises again, so no response is sent and the
exception escapes the read loop — the second component `false` records
that the loop terminates and the connection closes.  A parsed JSON object
is processed by `trackerProcess` exactly as in `trackerStep` and the loop
stays alive. -/
def trackerStepPy (env : TrackerEnv) (msg : Option JVal) :
    Option JVal × Bool :=
  match msg with
  | none => (some parse_error_response, true)
  | some req =>
      match req.pyGet "method" with
      | .error _ => (none, false)
      | .ok _ =>
          match trackerProcess env req with
          | .ok resp => (resp, true)
          | .error m =>
              (some (error_response (req.getD "id" .null) (-32603)
                ("Internal error: " ++ m)), true)

/-- One inbound message through `git_mcp_server.py`'s read loop with
Python's attribute semantics at the top level; same structure as
`trackerStepPy`. -/
def gitStepPy (env : GitEnv) (msg : Option JVal) : Option JVal × Bool :=
  match msg with
  | none => (some parse_error_response, true)
  | some req =>
      match req.pyGet "method" with
      | .error _ => (none, false)
      | .ok _ =>
          match gitProcess env req with
          | .ok resp => (resp, true)
          | .error m =>
              (some (error_response (req.getD "id" .null) (-32603)
                ("Internal error: " ++ m)), true)

/-- The read loop of `mcp_server.py` with the crash path: messages are
handled in arrival order until one makes the loop's error handling itself
raise, after which the connection is closed and the remaining messages are
never read. -/
def trackerRunPy (env : TrackerEnv) : List (Option JVal) → List (Option JVal)
  | [] => []
  | msg :: rest =>
      match trackerStepPy env msg with
      | (resp, true) => resp :: trackerRunPy env rest
      | (resp, false) => [resp]

/-- The read loop of `git_mcp_server.py` with the crash path. -/
def gitRunPy (env : GitEnv) : List (Option JVal) → List (Option JVal)
  | [] => []
  | msg :: rest =>
      match gitStepPy env msg with
      | (resp, true) => resp :: gitRunPy env rest
      | (resp, false) => [resp]

/-- CLAIM C2: for every envelope representable in the wire format (the
`Envelope` type makes the spec's validity rules structural: a request always
has a method, a response never carries both `result` and `error`), decoding
the encoding yields a structurally equal envelope. -/
theorem decode_encode_envelope (e : Envelope) :
    decodeEnvelope (encodeEnvelope e) = some e := by
  cases e with
  | request id m p => rfl
  | notification m p => rfl
  | response id outcome => cases outcome <;> rfl

/-- When the per-attempt call fails for the `k` attempts from `attempt` on
and succeeds at attempt `attempt + k`, still within `maxRetries` and the
remaining fuel, the loop returns that success after exactly `k + 1` cycles,
sleeping `2 ^ i` after each failed attempt `i`. -/
theorem retry_loop_first_success (f : Nat → Option String) (maxRetries : Nat)
    (r : String) :
    ∀ (k fuel attempt : Nat),
      (∀ i, attempt ≤ i → i < attempt + k → f i = none) →
      f (attempt + k) = some r →
      attempt + k ≤ maxRetries →
      k < fuel →
      retry_loop f maxRetries fuel attempt
        = (some r, k + 1, (List.range' attempt k).map (fun a => 2 ^ a)) := by
  intro k
  induction k with
  | zero =>
      intro fuel attempt hfail hsucc hle hfuel
      match fuel, hfuel with
      | fuel + 1, _ =>
        simp only [Nat.add_zero] at hsucc
        simp [retry_loop, hsucc]
  | succ k ih =>
      intro fuel attempt hfail hsucc hle hfuel
      match fuel, hfuel with
      | fuel + 1, hfuel =>
        have h0 : f attempt = none := hfail attempt (Nat.le_refl _) (by omega)
        have hlt : attempt < maxRetries := by omega
        have hrest := ih fuel (attempt + 1)
          (fun i h1 h2 => hfail i (by omega) (by omega))
          (by have : attempt + 1 + k = attempt + (k + 1) := by omega
              rw [this]; exact hsucc)
          (by omega) (by omega)
        simp [retry_loop, h0, hlt, hrest, List.range'_succ]

/-- When every attempt from `attempt` through `maxRetries` fails, the loop
returns `none` (the collapsed error value of the facade). -/
theorem retry_loop_all_fail (g : Nat → Option String) (maxRetries : Nat) :
    ∀ (fuel attempt : Nat),
      (∀ i, attempt ≤ i → i ≤ maxRetries → g i = none) →
      attempt ≤ maxRetries →
      (retry_loop g maxRetries fuel attempt).1 = none := by
  intro fuel
  induction fuel with
  | zero => intro attempt _ _; simp [retry_loop]
  | succ fuel ih =>
      intro attempt hfail hle
      have h0 : g attempt = none := hfail attempt (Nat.le_refl _) hle
      by_cases hlt : attempt < maxRetries
      · have := ih (attempt + 1) (fun i h1 h2 => hfail i (by omega) h2) (by omega)
        simp [retry_loop, h0, hlt, this]
      · simp [retry_loop, h0, hlt]

/-- The powers of two over a block of consecutive exponents are strictly
increasing from one wait to the next. -/
theorem chain_pow_two_range' :
    ∀ (k s : Nat), List.Chain' (· < ·) ((List.range' s k).map (fun a => (2 : Nat) ^ a)) := by
  intro k
  induction k with
  | zero => intro s; simp
  | succ k ih =>
      intro s
      cases k with
      | zero => simp
      | succ k =>
          simp only [List.range'_succ, List.map_cons, List.chain'_cons]
          refine ⟨?_, ?_⟩
          · exact Nat.pow_lt_pow_right (by omega) (by omega)
          · have := ih (s + 1)
            simpa [List.range'_succ] using this

/-- CLAIM C1: when the full connect/handshake/call cycle fails on the first
`k` attempts and succeeds on attempt `k + 1`, with `max_retries > k`, the
retrying facade returns the successful result after exactly `k + 1` cycles,
sleeping `2 ^ attempt` time units after each failed attempt (attempt
starting at 1), so the waits are strictly increasing; and when all
`max_retries` cycles fail it gives up and returns the failure value `none`
(the facade collapses every per-cycle error into `none`, so `none` is "the
last error"). -/
theorem call_tool_with_retry_backoff (envs envs2 : Nat → ClientEnv)
    (bound k maxRetries : Nat) (r : String)
    (hfail : ∀ i, 1 ≤ i → i ≤ k → client_call_tool (envs i) bound = none)
    (hsucc : client_call_tool (envs (k + 1)) bound = some r)
    (hk : k < maxRetries)
    (hall : ∀ i, 1 ≤ i → i ≤ maxRetries →
      client_call_tool (envs2 i) bound = none) :
    call_tool_with_retry_env envs bound maxRetries
      = (some r, k + 1, (List.range' 1 k).map (fun a => 2 ^ a)) ∧
    List.Chain' (· < ·) ((List.range' 1 k).map (fun a => (2 : Nat) ^ a)) ∧
    (call_tool_with_retry_env envs2 bound maxRetries).1 = none := by
  refine ⟨?_, chain_pow_two_range' k 1, ?_⟩
  · show retry_loop _ maxRetries maxRetries 1 = _
    exact retry_loop_first_success _ maxRetries r k maxRetries 1
      (fun i h1 h2 => hfail i h1 (by omega))
      (by show client_call_tool (envs (1 + k)) bound = some r
          rw [Nat.add_comm]; exact hsucc)
      (by omega) (by omega)
  · show (retry_loop _ maxRetries maxRetries 1).1 = none
    exact retry_loop_all_fail _ maxRetries maxRetries 1 hall (by omega)

/-- Witness for C1: the first two cycles fail to establish the transport,
the third succeeds; with `max_retries = 3` the facade returns the result
after 3 cycles with waits `[2, 4]`, and a family in which every cycle fails
yields `none`. -/
theorem call_tool_with_retry_backoff_witness :
    call_tool_with_retry_env
        (fun i => if 3 ≤ i then ⟨.ok (), 1, .ok (), 1, .ok ["ok"]⟩
          else ⟨.error "connection refused", 0, .ok (), 0, .ok []⟩) 30 3
      = (some "ok", 3, [2, 4]) ∧
    (call_tool_with_retry_env
        (fun _ => ⟨.error "connection refused", 0, .ok (), 0, .ok []⟩)
        30 3).1 = none := by
  have hfail : ∀ i, 1 ≤ i → i ≤ 2 →
      client_call_tool
        ((fun i => if 3 ≤ i then
            (⟨.ok (), 1, .ok (), 1, .ok ["ok"]⟩ : ClientEnv)
          else ⟨.error "connection refused", 0, .ok (), 0, .ok []⟩) i) 30
        = none := by
    intro i h1 h2
    simp only [if_neg (by omega : ¬ 3 ≤ i)]
    rfl
  have h := call_tool_with_retry_backoff
    (fun i => if 3 ≤ i then ⟨.ok (), 1, .ok (), 1, .ok ["ok"]⟩
      else ⟨.error "connection refused", 0, .ok (), 0, .ok []⟩)
    (fun _ => ⟨.error "connection refused", 0, .ok (), 0, .ok []⟩)
    30 2 3 "ok" hfail
    (by simp only [if_pos (by omega : 3 ≤ 2 + 1)]; rfl)
    (by omega) (fun i _ _ => rfl)
  exact ⟨by rw [h.1]; rfl, h.2.2⟩

/-- CLAIM C9: every invocation of the synchronous bridge allocates a fresh,
single-use event loop of its own, and that loop is closed when the call
completes — also when the coroutine raises (the outcome, exception
included, is passed through unchanged); two successive invocations never
share a loop. -/
theorem call_mcp_tool_sync_fresh_loop (n : Nat)
    (coro coro2 : Except String (Option String)) :
    (call_mcp_tool_sync n coro).1.1 = coro ∧
    (call_mcp_tool_sync n coro).1.2 = [.created n, .closed n] ∧
    (call_mcp_tool_sync ((call_mcp_tool_sync n coro).2) coro2).1.2
      = [.created (n + 1), .closed (n + 1)] ∧
    List.Disjoint (call_mcp_tool_sync n coro).1.2
      ((call_mcp_tool_sync ((call_mcp_tool_sync n coro).2) coro2).1.2) := by
  refine ⟨rfl, rfl, rfl, ?_⟩
  intro a ha hb
  have ha' : a = LoopEvent.created n ∨ a = LoopEvent.closed n := by
    simpa [call_mcp_tool_sync, tryFinallyEvents] using ha
  have hb' : a = LoopEvent.created (n + 1) ∨ a = LoopEvent.closed (n + 1) := by
    simpa [call_mcp_tool_sync, tryFinallyEvents] using hb
  rcases ha' with rfl | rfl <;> rcases hb' with h | h
  · injection h with h; omega
  · exact LoopEvent.noConfusion h
  · exact LoopEvent.noConfusion h
  · injection h with h; omega

/-- The facade returns a text exactly when the whole cycle succeeds:
transport established, `initialize` returned within its fixed bound of 10,
the tool call returned within the caller's bound, and the result carried at
least one content block.  On every other path the return value is `none`. -/
theorem client_call_tool_some_iff (env : ClientEnv) (bound : Nat) (s : String) :
    client_call_tool env bound = some s ↔
      env.connect = .ok () ∧ env.init_duration ≤ 10 ∧
      env.init_result = .ok () ∧ env.call_duration ≤ bound ∧
      ∃ rest, env.call_result = .ok (s :: rest) := by
  obtain ⟨conn, idur, ires, cdur, cres⟩ := env
  cases conn with
  | error m => simp [client_call_tool, client_call_tool_trace]
  | ok u =>
      cases u
      by_cases h1 : 10 < idur
      · simp only [client_call_tool, client_call_tool_trace, waitFor, if_pos h1]
        simp
        omega
      · cases ires with
        | error m =>
            simp [client_call_tool, client_call_tool_trace, waitFor, h1]
        | ok v =>
            cases v
            by_cases h2 : bound < cdur
            · simp only [client_call_tool, client_call_tool_trace, waitFor,
                if_neg h1, if_pos h2]
              simp
              omega
            · cases cres with
              | error m =>
                  simp [client_call_tool, client_call_tool_trace, waitFor, h1, h2]
              | ok contents =>
                  cases contents with
                  | nil =>
                      simp [client_call_tool, client_call_tool_trace, waitFor,
                        h1, h2]
                  | cons hd tl =>
                      simp [client_call_tool, client_call_tool_trace, waitFor,
                        h1, h2, List.head?]
                      constructor
                      · intro hs
                        exact ⟨by omega, by omega, hs⟩
                      · intro hs
                        exact hs.2.2

/-- CLAIM C10: the client call facade is total at its public interface —
its codomain is `Option String` and every branch of its body (the `except`
clauses included) returns through it, so a text comes back exactly when the
whole cycle succeeds with non-empty content, and a timeout, a connection
failure, a protocol-level exception and a successful response with empty
content all collapse to the indistinguishable `none`. -/
theorem client_call_tool_total (env : ClientEnv) (bound : Nat) :
    (∀ s, client_call_tool env bound = some s ↔
      env.connect = .ok () ∧ env.init_duration ≤ 10 ∧
      env.init_result = .ok () ∧ env.call_duration ≤ bound ∧
      ∃ rest, env.call_result = .ok (s :: rest)) ∧
    client_call_tool ⟨.ok (), 1, .ok (), 5, .ok ["late"]⟩ 1 = none ∧
    client_call_tool ⟨.error "connection refused", 0, .ok (), 0, .ok []⟩ 15
      = none ∧
    client_call_tool ⟨.ok (), 1, .ok (), 1, .error "protocol error"⟩ 15
      = none ∧
    client_call_tool ⟨.ok (), 1, .ok (), 1, .ok []⟩ 15 = none :=
  ⟨fun s => client_call_tool_some_iff env bound s, rfl, rfl, rfl, rfl⟩

/-- Counterexample to CLAIM C7 as stated: a call with bound 1 against a
handler that takes 5 returns the plain `none` (not a distinguishable
timeout error) at logical time 2 (initialize took 1, then the waiter was
abandoned at the bound), and the invocation's connection IS torn down — the
`async with` blocks close it on exit — exactly as on a connection-refused
failure, whose result is indistinguishable. -/
theorem client_timeout_tears_down_connection :
    client_call_tool_trace ⟨.ok (), 1, .ok (), 5, .ok ["late"]⟩ 1 7
      = (none, 2, [.opened 7, .closed 7]) ∧
    ConnEvent.closed 7 ∈
      (client_call_tool_trace ⟨.ok (), 1, .ok (), 5, .ok ["late"]⟩ 1 7).2.2 ∧
    client_call_tool ⟨.ok (), 1, .ok (), 5, .ok ["late"]⟩ 1
      = client_call_tool ⟨.error "connection refused", 0, .ok (), 0, .ok []⟩ 1 := by
  refine ⟨rfl, ?_, rfl⟩
  decide

/-- CLAIM C7 amended: on a call whose handler exceeds the bound the facade
returns `none` after `init_duration + bound` logical time units (the waiter
is abandoned exactly at the bound); the connection opened for that
invocation is closed when the call completes — the facade opens a fresh
connection per invocation rather than keeping a session — so a later,
unrelated invocation against a responsive environment succeeds on its own
fresh connection. -/
theorem client_timeout_abandons_waiter (env env2 : ClientEnv)
    (bound bound2 cid cid2 : Nat) (t : String) (rest : List String)
    (hconn : env.connect = .ok ()) (hidur : env.init_duration ≤ 10)
    (hires : env.init_result = .ok ()) (hslow : bound < env.call_duration)
    (hconn2 : env2.connect = .ok ()) (hidur2 : env2.init_duration ≤ 10)
    (hires2 : env2.init_result = .ok ()) (hfast : env2.call_duration ≤ bound2)
    (hres2 : env2.call_result = .ok (t :: rest)) :
    client_call_tool_trace env bound cid
      = (none, env.init_duration + bound, [.opened cid, .closed cid]) ∧
    client_call_tool_trace env2 bound2 cid2
      = (some t, env2.init_duration + env2.call_duration,
         [.opened cid2, .closed cid2]) := by
  obtain ⟨conn, idur, ires, cdur, cres⟩ := env
  obtain ⟨conn2, idur2, ires2, cdur2, cres2⟩ := env2
  simp only at hconn hidur hires hslow hconn2 hidur2 hires2 hfast hres2
  subst hconn hires hconn2 hires2 hres2
  constructor
  · simp [client_call_tool_trace, waitFor, Nat.not_lt.mpr hidur, hslow]
  · simp [client_call_tool_trace, waitFor, Nat.not_lt.mpr hidur2,
      Nat.not_lt.mpr hfast, List.head?]

/-- Witness for the amended C7: bound 1 against a handler taking 5 yields
`none` at time 2 with the connection closed; a later call with a
responsive handler returns its text on a fresh connection. -/
theorem client_timeout_abandons_waiter_witness :
    client_call_tool_trace ⟨.ok (), 1, .ok (), 5, .ok ["late"]⟩ 1 3
      = (none, 2, [.opened 3, .closed 3]) ∧
    client_call_tool_trace ⟨.ok (), 1, .ok (), 1, .ok ["fresh"]⟩ 15 4
      = (some "fresh", 2, [.opened 4, .closed 4]) :=
  client_timeout_abandons_waiter
    ⟨.ok (), 1, .ok (), 5, .ok ["late"]⟩ ⟨.ok (), 1, .ok (), 1, .ok ["fresh"]⟩
    1 15 3 4 "fresh" [] rfl (by decide) rfl (by decide)
    rfl (by decide) rfl (by decide) rfl

/-- Counterexample to CLAIM C5 as stated: the inbound message `[1, 2, 3]`
is valid JSON but cannot be decoded as a valid envelope (`decodeEnvelope`
rejects it), yet neither server answers a parse-error response:
`request.get("method")` raises `AttributeError` on a list, the except
clause's own `request.get("id")` raises again, nothing is sent, the read
loop exits and the connection closes, leaving a subsequent message
unprocessed.  And the dict non-envelope `{"foo": 1}` is answered with a
`-32601` method-not-found error response, not a parse error. -/
theorem non_envelope_json_kills_connection :
    decodeEnvelope (.arr [.num 1, .num 2, .num 3]) = none ∧
    trackerStepPy dummyTrackerEnv (some (.arr [.num 1, .num 2, .num 3]))
      = (none, false) ∧
    gitStepPy dummyGitEnv (some (.arr [.num 1, .num 2, .num 3]))
      = (none, false) ∧
    trackerRunPy dummyTrackerEnv
        [some (.arr [.num 1, .num 2, .num 3]),
         some (rpc_request (.num 1) "initialize" (.obj []))]
      = [none] ∧
    trackerStepPy dummyTrackerEnv (some (.obj [("foo", .num 1)]))
      = (some (error_response .null (-32601) ("Method not found: " ++ "None")),
         true) :=
  ⟨rfl, rfl, rfl, rfl, rfl⟩

/-- CLAIM C5 amended: an inbound message that is not syntactically valid
JSON is answered with the parse-error response — id `null`, code `-32700`,
an `error` member and no `result` — and the read loop continues with the
subsequent messages, on both servers alike.  A message that is valid JSON
but not a JSON object makes the loop's error handling itself raise
(`request.get` has no meaning on it, and the except clause's own
`request.get("id")` raises again): no response is sent, the exception
escapes the read loop and the connection closes, the remaining messages
unread.  A message that is a JSON object is processed without crashing the
loop; in particular an object carrying no `method` is answered with a
`-32601` method-not-found error, not a parse error. -/
theorem parse_error_and_crash_paths (envT : TrackerEnv) (envG : GitEnv)
    (rest restG : List (Option JVal)) (j : JVal)
    (hnotobj : ∀ fields, j ≠ JVal.obj fields) :
    (trackerStepPy envT none = (some parse_error_response, true) ∧
     gitStepPy envG none = (some parse_error_response, true) ∧
     parse_error_response.get? "id" = some .null ∧
     parse_error_response.hasKey "result" = false ∧
     parse_error_response.get? "error"
       = some (.obj [("code", .num (-32700)),
                     ("message", .str "Parse error")]) ∧
     trackerRunPy envT (none :: rest)
       = some parse_error_response :: trackerRunPy envT rest ∧
     gitRunPy envG (none :: restG)
       = some parse_error_response :: gitRunPy envG restG) ∧
    (trackerStepPy envT (some j) = (none, false) ∧
     gitStepPy envG (some j) = (none, false) ∧
     trackerRunPy envT (some j :: rest) = [none] ∧
     gitRunPy envG (some j :: restG) = [none]) ∧
    (∀ fields, trackerStepPy envT (some (.obj fields))
        = (trackerStep envT (some (.obj fields)), true)) ∧
    (∀ fields, gitStepPy envG (some (.obj fields))
        = (gitStep envG (some (.obj fields)), true)) ∧
    (∀ fields, (JVal.obj fields).get? "method" = none →
      trackerStepPy envT (some (.obj fields))
        = (some (error_response ((JVal.obj fields).getD "id" .null) (-32601)
            ("Method not found: " ++ "None")), true)) := by
  have hcrashT : trackerStepPy envT (some j) = (none, false) := by
    cases j with
    | obj fields => exact absurd rfl (hnotobj fields)
    | null => rfl
    | bool b => rfl
    | num n => rfl
    | str s => rfl
    | arr elems => rfl
  have hcrashG : gitStepPy envG (some j) = (none, false) := by
    cases j with
    | obj fields => exact absurd rfl (hnotobj fields)
    | null => rfl
    | bool b => rfl
    | num n => rfl
    | str s => rfl
    | arr elems => rfl
  refine ⟨⟨rfl, rfl, rfl, rfl, rfl, rfl, rfl⟩,
    ⟨hcrashT, hcrashG, ?_, ?_⟩, ?_, ?_, ?_⟩
  · simp [trackerRunPy, hcrashT]
  · simp [gitRunPy, hcrashG]
  · intro fields
    cases hp : trackerProcess envT (JVal.obj fields) with
    | ok resp => simp [trackerStepPy, trackerStep, JVal.pyGet, hp]
    | error m => simp [trackerStepPy, trackerStep, JVal.pyGet, hp]
  · intro fields
    cases hp : gitProcess envG (JVal.obj fields) with
    | ok resp => simp [gitStepPy, gitStep, JVal.pyGet, hp]
    | error m => simp [gitStepPy, gitStep, JVal.pyGet, hp]
  · intro fields hm
    simp [trackerStepPy, trackerProcess, JVal.pyGet, hm, optEqStr, pyStr]

/-- Witness for the amended C5: a `json.loads` failure is answered with the
parse-error response and the loop survives, while the valid-JSON
non-object `"hello"` sends nothing and terminates the loop on both
servers. -/
theorem parse_error_and_crash_paths_witness :
    trackerStepPy dummyTrackerEnv none = (some parse_error_response, true) ∧
    trackerStepPy dummyTrackerEnv (some (.str "hello")) = (none, false) ∧
    gitStepPy dummyGitEnv (some (.str "hello")) = (none, false) := by
  have h := parse_error_and_crash_paths dummyTrackerEnv dummyGitEnv [] []
    (.str "hello") (fun fields h => JVal.noConfusion h)
  exact ⟨h.1.1, h.2.1.1, h.2.1.2.1⟩

/-- CLAIM C8: a handler that raises during a `tools/call` is caught by the
read loop's `except Exception` clause and converted into a structured
internal-error response (code `-32603`) carrying the original exception
message; the loop does not crash and continues serving the subsequent
messages of the same connection, on both servers alike. -/
theorem handler_fault_isolated (envT : TrackerEnv) (envG : GitEnv)
    (rid args : JVal) (m mg : String) (rest restG : List (Option JVal))
    (hT : envT.get_host_metrics = .error m)
    (hG : envG.get_current_branch = .error mg) :
    trackerStep envT (some (call_tool_request rid "get-host-metrics" args))
      = some (error_response rid (-32603) ("Internal error: " ++ m)) ∧
    gitStep envG (some (call_tool_request rid "get-current-branch" args))
      = some (error_response rid (-32603) ("Internal error: " ++ mg)) ∧
    trackerRun envT
        (some (call_tool_request rid "get-host-metrics" args) :: rest)
      = some (error_response rid (-32603) ("Internal error: " ++ m))
        :: trackerRun envT rest ∧
    gitRun envG
        (some (call_tool_request rid "get-current-branch" args) :: restG)
      = some (error_response rid (-32603) ("Internal error: " ++ mg))
        :: gitRun envG restG := by
  have hprocT :
      trackerProcess envT (call_tool_request rid "get-host-metrics" args)
        = Except.error m := by
    have hb :
        trackerProcess envT (call_tool_request rid "get-host-metrics" args)
          = envT.get_host_metrics.bind
              (fun payload =>
                Except.ok (some (text_result_response rid payload))) := rfl
    rw [hb, hT]
    rfl
  have hprocG :
      gitProcess envG (call_tool_request rid "get-current-branch" args)
        = Except.error mg := by
    have hb :
        gitProcess envG (call_tool_request rid "get-current-branch" args)
          = envG.get_current_branch.bind
              (fun payload =>
                Except.ok (some (text_result_response rid payload))) := rfl
    rw [hb, hG]
    rfl
  have hstepT :
      trackerStep envT (some (call_tool_request rid "get-host-metrics" args))
        = some (error_response rid (-32603) ("Internal error: " ++ m)) := by
    simp only [trackerStep, hprocT]
    rfl
  have hstepG :
      gitStep envG (some (call_tool_request rid "get-current-branch" args))
        = some (error_response rid (-32603) ("Internal error: " ++ mg)) := by
    simp only [gitStep, hprocG]
    rfl
  refine ⟨hstepT, hstepG, ?_, ?_⟩
  · show trackerStep envT _ :: trackerRun envT rest = _
    rw [hstepT]
  · show gitStep envG _ :: gitRun envG restG = _
    rw [hstepG]

/-- Witness for C8: concrete environments in which `get-host-metrics`
raises `boom` and `get-current-branch` raises `git boom`; each server
answers the internal-error response carrying the message. -/
theorem handler_fault_isolated_witness :
    trackerStep ⟨fun _ => .ok "", fun _ _ _ => .ok "", .error "boom"⟩
        (some (call_tool_request (.num 1) "get-host-metrics" (.obj [])))
      = some (error_response (.num 1) (-32603) ("Internal error: " ++ "boom")) ∧
    gitStep ⟨.error "git boom", .ok "", fun _ => .ok "", .ok "",
        fun _ => .ok "", fun _ => .ok ""⟩
        (some (call_tool_request (.num 1) "get-current-branch" (.obj [])))
      = some (error_response (.num 1) (-32603)
          ("Internal error: " ++ "git boom")) := by
  have h := handler_fault_isolated
    ⟨fun _ => .ok "", fun _ _ _ => .ok "", .error "boom"⟩
    ⟨.error "git boom", .ok "", fun _ => .ok "", .ok "",
      fun _ => .ok "", fun _ => .ok ""⟩
    (.num 1) (.obj []) "boom" "git boom" [] [] rfl rfl
  exact ⟨h.1, h.2.1⟩

/-- Counterexample to CLAIM C3 as stated: on the git server a `tools/call`
for an unregistered name is answered with a NORMAL RESULT response — the
response carries a `result` member and no `error` member; the
tool-not-found report is only a JSON payload inside the result's text — so
the server does not answer a tool-not-found error response. -/
theorem git_unknown_tool_answers_result :
    gitStep dummyGitEnv
        (some (call_tool_request (.num 5) "no-such-tool" (.obj [])))
      = some (text_result_response (.num 5)
          "\x7b\"success\": false, \"error\": \"Tool not found: no-such-tool\"\x7d") ∧
    (gitStep dummyGitEnv
        (some (call_tool_request (.num 5) "no-such-tool" (.obj [])))).map
        (fun r => (r.hasKey "result", r.hasKey "error"))
      = some (true, false) :=
  ⟨rfl, rfl⟩

/-- CLAIM C3 amended: for a `tools/call` whose name is not registered, the
tracker server answers an error response (code `-32601`,
`Tool not found: <name>`), while the git server answers a normal result
response whose text payload reports `Tool not found: <name>`; on both
servers the connection remains open and usable — a subsequent request on
the same connection (here an `initialize`) is processed normally. -/
theorem unknown_tool_kept_connection (envT : TrackerEnv) (envG : GitEnv)
    (rid rid2 args : JVal) (name : String) (rest restG : List (Option JVal))
    (h1 : name ≠ "get-tracker-tasks") (h2 : name ≠ "create-tracker-task")
    (h3 : name ≠ "get-host-metrics")
    (g1 : name ≠ "get-current-branch") (g2 : name ≠ "get-git-status")
    (g3 : name ≠ "get-recent-commits") (g4 : name ≠ "get-changed-files")
    (g5 : name ≠ "get-file-content") (g6 : name ≠ "get-git-diff") :
    trackerStep envT (some (call_tool_request rid name args))
      = some (error_response rid (-32601) ("Tool not found: " ++ name)) ∧
    gitStep envG (some (call_tool_request rid name args))
      = some (text_result_response rid
          ("\x7b\"success\": false, \"error\": \"Tool not found: " ++ name
            ++ "\"\x7d")) ∧
    trackerRun envT (some (call_tool_request rid name args)
        :: some (rpc_request rid2 "initialize" (.obj [])) :: rest)
      = some (error_response rid (-32601) ("Tool not found: " ++ name))
        :: some (init_response rid2 "yandex-tracker-mcp-server")
        :: trackerRun envT rest ∧
    gitRun envG (some (call_tool_request rid name args)
        :: some (rpc_request rid2 "initialize" (.obj [])) :: restG)
      = some (text_result_response rid
          ("\x7b\"success\": false, \"error\": \"Tool not found: " ++ name
            ++ "\"\x7d"))
        :: some (init_response rid2 "git-mcp-server") :: gitRun envG restG := by
  have hsT : trackerStep envT (some (call_tool_request rid name args))
      = some (error_response rid (-32601) ("Tool not found: " ++ name)) := by
    simp [trackerStep, trackerProcess, call_tool_request, rpc_request,
      JVal.get?, JVal.getD, optEqStr, JVal.eqStr, tracker_call_branch,
      pyStr, List.lookup, h1, h2, h3]
  have hsG : gitStep envG (some (call_tool_request rid name args))
      = some (text_result_response rid
          ("\x7b\"success\": false, \"error\": \"Tool not found: " ++ name
            ++ "\"\x7d")) := by
    simp [gitStep, gitProcess, call_tool_request, rpc_request,
      JVal.get?, JVal.getD, optEqStr, JVal.eqStr, git_call_tool,
      git_call_tool_branch, pyStr, List.lookup, g1, g2, g3, g4, g5, g6]
  have hiT : trackerStep envT (some (rpc_request rid2 "initialize" (.obj [])))
      = some (init_response rid2 "yandex-tracker-mcp-server") := rfl
  have hiG : gitStep envG (some (rpc_request rid2 "initialize" (.obj [])))
      = some (init_response rid2 "git-mcp-server") := rfl
  refine ⟨hsT, hsG, ?_, ?_⟩
  · show trackerStep envT _ :: trackerStep envT _ :: trackerRun envT rest = _
    rw [hsT, hiT]
  · show gitStep envG _ :: gitStep envG _ :: gitRun envG restG = _
    rw [hsG, hiG]

/-- Witness for the amended C3: calling the unregistered tool `frobnicate`
yields the tracker server's `-32601` error response and the git server's
normal result carrying the tool-not-found payload. -/
theorem unknown_tool_kept_connection_witness :
    trackerStep dummyTrackerEnv
        (some (call_tool_request (.num 7) "frobnicate" (.obj [])))
      = some (error_response (.num 7) (-32601)
          ("Tool not found: " ++ "frobnicate")) ∧
    gitStep dummyGitEnv
        (some (call_tool_request (.num 7) "frobnicate" (.obj [])))
      = some (text_result_response (.num 7)
          ("\x7b\"success\": false, \"error\": \"Tool not found: "
            ++ "frobnicate" ++ "\"\x7d")) := by
  have h := unknown_tool_kept_connection dummyTrackerEnv dummyGitEnv
    (.num 7) (.num 8) (.obj []) "frobnicate" [] []
    (by decide) (by decide) (by decide) (by decide) (by decide)
    (by decide) (by decide) (by decide) (by decide)
  exact ⟨h.1, h.2.1⟩

/-- Counterexample to CLAIM C4 as stated: a `tools/call` of
`get-recent-commits` with `count` of the wrong primitive type (a string,
where the declared schema says integer) is not answered with an
invalid-arguments error — the dispatch enters the handler with the
wrong-typed value, and the call completes as a normal result. -/
theorem wrong_type_argument_reaches_handler :
    git_call_tool_branch (some (.str "get-recent-commits"))
        (.obj [("count", .str "abc")])
      = .runHandler (.recentCommits (.str "abc")) ∧
    gitStep dummyGitEnv
        (some (call_tool_request (.num 9) "get-recent-commits"
          (.obj [("count", .str "abc")])))
      = some (text_result_response (.num 9) "") :=
  ⟨rfl, rfl⟩

/-- CLAIM C4 amended: the only argument check in either server is the git
server's `get-file-content`, which — before running its handler — answers
the `file_path is required` payload (inside a normal result, not an
invalid-arguments error response) whenever `file_path` is absent or falsy;
no primitive-type checking exists anywhere: `get-recent-commits` hands
whatever `count` value arrived to its handler, and the tracker server
passes arguments through unchecked (`get-tracker-tasks` receives whatever
`priority` value arrived). -/
theorem argument_validation_as_implemented (args : JVal)
    (hfp : (args.getD "file_path" .null).isTruthy = false) :
    git_call_tool_branch (some (.str "get-file-content")) args
      = .missingArgument
          "\x7b\"success\": false, \"error\": \"file_path is required\"\x7d" ∧
    (∀ a : JVal, git_call_tool_branch (some (.str "get-recent-commits"))
        (.obj [("count", a)])
      = .runHandler (.recentCommits a)) ∧
    (∀ a : JVal, tracker_call_branch (some (.str "get-tracker-tasks"))
        (.obj [("priority", a)])
      = .runTasks (some a)) := by
  refine ⟨?_, fun a => rfl, fun a => rfl⟩
  simp [git_call_tool_branch, optEqStr, JVal.eqStr, hfp]

/-- Witness for the amended C4: a call of `get-file-content` with no
arguments short-circuits to the required-field payload, and a boolean
`count` still reaches the `get-recent-commits` handler. -/
theorem argument_validation_as_implemented_witness :
    git_call_tool_branch (some (.str "get-file-content")) (.obj [])
      = .missingArgument
          "\x7b\"success\": false, \"error\": \"file_path is required\"\x7d" ∧
    git_call_tool_branch (some (.str "get-recent-commits"))
        (.obj [("count", .bool true)])
      = .runHandler (.recentCommits (.bool true)) := by
  have h := argument_validation_as_implemented (.obj []) rfl
  exact ⟨h.1, h.2.1 (.bool true)⟩

/-- Counterexample to CLAIM C6 as stated: the tracker server's `tools/list`
response is a hardcoded list of three descriptors, while its registry
(the decorated `list_tools`) holds two — the wire adds
`create-tracker-task` and alters the `get-tracker-tasks` descriptor, so
the response is not the registry's descriptors. -/
theorem tracker_list_tools_diverges_from_registry :
    trackerStep dummyTrackerEnv
        (some (rpc_request (.num 3) "tools/list" (.obj [])))
      = some (list_tools_response (.num 3) trackerWireTools) ∧
    trackerWireTools.length = 3 ∧
    (trackerRegistryTools.map marshalTool).length = 2 ∧
    trackerWireTools ≠ trackerRegistryTools.map marshalTool := by
  refine ⟨rfl, rfl, rfl, fun h => ?_⟩
  exact absurd (congrArg List.length h) (by decide)

/-- CLAIM C6 amended: the git server answers `tools/list` with exactly its
registry's descriptors, marshalled unaltered in registration order; the
tracker server answers with its fixed three-descriptor wire list (which
matches its own call dispatch but not its registry). -/
theorem list_tools_responses (envT : TrackerEnv) (envG : GitEnv) (rid : JVal) :
    gitStep envG (some (rpc_request rid "tools/list" (.obj [])))
      = some (list_tools_response rid (gitRegistryTools.map marshalTool)) ∧
    trackerStep envT (some (rpc_request rid "tools/list" (.obj [])))
      = some (list_tools_response rid trackerWireTools) ∧
    gitRegistryTools.map (fun t => t.name)
      = ["get-current-branch", "get-git-status", "get-recent-commits",
         "get-changed-files", "get-file-content", "get-git-diff"] :=
  ⟨rfl, rfl, rfl⟩
